import Mathlib

/-!
Verification development for the `routine-workflow` project-hygiene
orchestrator.  The Python sources under `src/routine_workflow/` are given a
shallow embedding: external-process launches are summarised by a
`ProcOutcome` value, the filesystem state relevant to the single-instance
lock by a small record, and a `SystemExit`-style process termination by the
`Except Int` error channel (carrying the exit code).
-/

namespace RoutineWorkflow

/-- Outcome of one `subprocess.run` launch, as observed by
`utils.run_command`: either the process completed (with a return code and
the two captured streams), or the launch raised `TimeoutExpired`,
`FileNotFoundError`, or some other exception (each carrying the exception
text used in the constructed `stderr`). -/
inductive ProcOutcome where
  | completed (returncode : Int) (stdout stderr : String)
  | timedOut (msg : String)
  | notFound (msg : String)
  | otherError (msg : String)
deriving DecidableEq, Repr

/-- A Python value appearing in the dictionary returned by `run_command`. -/
inductive PyVal where
  | bool (b : Bool)
  | str (s : String)
deriving DecidableEq, Repr

/-- The Python dictionary returned by `run_command`, as an association
list in insertion order. -/
abbrev PyDict := List (String × PyVal)

/-- Python truthiness of a dictionary: a dict is truthy iff non-empty. -/
def pyTruthy (d : PyDict) : Bool := !d.isEmpty

/-- Python `a or b` on integers: `a` when non-zero (truthy), else `b`.
Mirrors the `proc.returncode or 1` expression in `utils.run_command`. -/
def pyOrInt (a b : Int) : Int := if a == 0 then b else a

/-- Whether the launch outcome counts as success: the process completed
with return code 0 (`success = proc.returncode == 0` in the source); every
exceptional launch is a failure. -/
def procSuccess : ProcOutcome → Bool
  | .completed rc _ _ => rc == 0
  | _ => false

/-- Embedding of `utils.run_command` (src/routine_workflow/utils.py).
The subprocess launch is summarised by `outcome`.  A normal return is
`Except.ok` carrying the literal dictionary
`{"success": success, "stdout": stdout, "stderr": stderr}` built by the
source; a `cleanup_and_exit(code)` call (which raises `SystemExit(code)`
after best-effort lock release) is `Except.error code`.  On a completed
process with non-zero return code and `fatal=True` the source exits with
`proc.returncode or 1`; a timeout exits 124, a missing executable 127 and
any other exception 1 when fatal, and each non-fatal exceptional path
returns a failed result whose `stderr` holds the exception text. -/
def run_command (outcome : ProcOutcome) (fatal : Bool) : Except Int PyDict :=
  match outcome with
  | .completed rc out err =>
      let success := rc == 0
      if success = false ∧ fatal = true then
        Except.error (pyOrInt rc 1)
      else
        Except.ok [("success", PyVal.bool success),
                   ("stdout", PyVal.str out),
                   ("stderr", PyVal.str err)]
  | .timedOut msg =>
      if fatal then Except.error 124
      else
        Except.ok [("success", PyVal.bool false),
                   ("stdout", PyVal.str ""),
                   ("stderr", PyVal.str ("TimeoutExpired: " ++ msg))]
  | .notFound msg =>
      if fatal then Except.error 127
      else
        Except.ok [("success", PyVal.bool false),
                   ("stdout", PyVal.str ""),
                   ("stderr", PyVal.str ("FileNotFoundError: " ++ msg))]
  | .otherError msg =>
      if fatal then Except.error 1
      else
        Except.ok [("success", PyVal.bool false),
                   ("stdout", PyVal.str ""),
                   ("stderr", PyVal.str ("Exception: " ++ msg))]

/-- Filesystem state at the configured lock location: whether the lock
directory exists, and the content of the `pid` marker file inside it
(`none` when the marker file does not exist). -/
structure LockFS where
  lockDirExists : Bool
  pidFile : Option String
deriving DecidableEq, Repr

/-- The runner's lock bookkeeping: `_lock_acquired` and whether
`_pid_path` is set (it always points at `lock_dir / pid`). -/
structure LockState where
  lock_acquired : Bool
  pid_path : Bool
deriving DecidableEq, Repr

/-- Removal of leading whitespace characters from a character list. -/
def dropLeadingWs : List Char → List Char
  | [] => []
  | c :: r => if c.isWhitespace then dropLeadingWs r else c :: r

/-- Model of Python `str.strip()` with no argument: removes leading and
trailing whitespace, as applied to the marker file's text in
`lock.release_lock`. -/
def pyStrip (s : String) : String :=
  String.mk (List.reverse (dropLeadingWs (List.reverse (dropLeadingWs s.toList))))

/-- Result of `lock.acquire_lock`: either `SystemExit(code)` leaving the
filesystem in the returned state, or success with the new filesystem and
runner lock state. -/
inductive AcquireResult where
  | exit (code : Int) (fs : LockFS)
  | ok (fs : LockFS) (st : LockState)
deriving DecidableEq, Repr

/-- Embedding of `lock.acquire_lock` (src/routine_workflow/lock.py).
`config.lock_dir.mkdir(parents=True, exist_ok=False)` is a single atomic
transition that raises `FileExistsError` exactly when the lock directory
already exists; on that exception the source logs and raises
`SystemExit(3)` without touching the existing lock.  On success it writes
`str(os.getpid())` into the `pid` marker file and records
`_pid_path`/`_lock_acquired` on the runner. -/
def acquire_lock (pid : Nat) (fs : LockFS) : AcquireResult :=
  if fs.lockDirExists then
    AcquireResult.exit 3 fs
  else
    AcquireResult.ok { lockDirExists := true, pidFile := some (toString pid) }
                    { lock_acquired := true, pid_path := true }

/-- Embedding of `lock.release_lock` (src/routine_workflow/lock.py).
Returns the filesystem and runner lock state after the call; the function
is total because the source wraps its body in `try/except Exception` and
swallows every error.  `rmtreeRaises` injects a failure of
`shutil.rmtree` (caught and logged by the source, leaving the directory
behind).  The `finally` clause resets `_lock_acquired` and `_pid_path`
whenever the body runs. -/
def release_lock (pid : Nat) (rmtreeRaises : Bool) (fs : LockFS) (st : LockState) :
    LockFS × LockState :=
  if st.lock_acquired = false then
    (fs, st)
  else
    let fs' :=
      match st.pid_path, fs.pidFile with
      | true, some txt =>
          if pyStrip txt = toString pid then
            if rmtreeRaises then fs else { lockDirExists := false, pidFile := none }
          else
            fs
      | _, _ =>
          if fs.lockDirExists then
            if rmtreeRaises then fs else { lockDirExists := false, pidFile := none }
          else
            fs
    (fs', { lock_acquired := false, pid_path := false })

/-- Embedding of the `WorkflowConfig` dataclass
(src/routine_workflow/config.py): paths are opaque strings, commands are
lists of argument strings.  The dataclass is declared `frozen=True`
(attribute assignment raises), but its list-valued fields remain ordinary
mutable Python lists.  The `git_push` field is modelled from the spec:
the config module snapshot omits it while `steps/step6.py` and the test
suite read `config.git_push` as one of the boolean toggles the spec lists
for `WorkflowConfig`. -/
structure WorkflowConfig where
  project_root : String
  log_dir : String
  log_file : String
  lock_dir : String
  clean_script : String
  backup_script : String
  code_dump_script : String
  code_dump_clean_cmd : List String
  code_dump_run_command : List String
  fail_on_backup : Bool
  auto_yes : Bool
  dry_run : Bool
  max_workers : Nat
  workflow_timeout : Nat
  exclude_patterns : List String
  git_push : Bool
deriving DecidableEq, Repr

/-- A concrete configuration used to evaluate the embedded operations on
closed inputs (paths are as in the CLI defaults; dry-run defaults on). -/
def sampleConfig : WorkflowConfig where
  project_root := "/proj"
  log_dir := "/sdcard/tools/logs"
  log_file := "/sdcard/tools/logs/routine.log"
  lock_dir := "/tmp/routine_workflow.lock"
  clean_script := "/tools/clean.py"
  backup_script := "/tools/backup.sh"
  code_dump_script := "/sdcard/tools/run_code_dump.sh"
  code_dump_clean_cmd := ["code-dump", "batch", "clean"]
  code_dump_run_command := ["code-dump", "batch", "run"]
  fail_on_backup := false
  auto_yes := false
  dry_run := true
  max_workers := 4
  workflow_timeout := 0
  exclude_patterns := []
  git_push := false

/-- The `_default_run_cmd()` literal from src/routine_workflow/config.py,
also inlined as the fallback in `steps/step5.py`. -/
def default_run_command : List String :=
  ["code-dump", "batch", "run",
   "--dirs", "., packages, packages/platform_core, packages/telethon_adapter_kit, services, services/forwarder_bot"]

/-- Embedding of `steps/step5.py generate_dumps`, tracking its effect on
the shared configuration.  In the source, `cmd = config.code_dump_run_command
or [...]` binds `cmd` to the very list object stored in the config
whenever that list is non-empty (truthy), so the subsequent
`cmd.append(-nd)` / `cmd.append(-y)` calls mutate
`config.code_dump_run_command` in place.  The result is the configuration as
observable after the call together with the command handed to
`run_command` (`none` when `code-dump` is not on the PATH and the step
returns early). -/
def generate_dumps (cfg : WorkflowConfig) (codeDumpExists : Bool) :
    WorkflowConfig × Option (List String) :=
  if codeDumpExists = false then
    (cfg, none)
  else
    let base := if cfg.code_dump_run_command.isEmpty then default_run_command
                else cfg.code_dump_run_command
    let cmd1 := if cfg.dry_run = false then base ++ ["-nd"] else base
    let cmd2 := if cfg.auto_yes = true then cmd1 ++ ["-y"] else cmd1
    let cfg' := if cfg.code_dump_run_command.isEmpty then cfg
                else { cfg with code_dump_run_command := cmd2 }
    (cfg', some cmd2)

/-- Embedding of `steps/step6.py commit_hygiene`.  The three git
invocations all pass `fatal=True` to `run_command`; their launch outcomes
are given as parameters.  `if not run_command(...)` in the source tests
Python truthiness of the returned dictionary (`pyTruthy`); the guard
`if commit_success or True` before the push is literally always true in
the source, so the push always runs.  A `cleanup_and_exit` inside a fatal
`run_command` propagates as `Except.error`. -/
def commit_hygiene (cfg : WorkflowConfig) (gitExists : Bool)
    (addOutcome commitOutcome pushOutcome : ProcOutcome) : Except Int Bool :=
  if cfg.dry_run = true ∨ cfg.git_push = false ∨ gitExists = false then
    Except.ok true
  else
    match run_command addOutcome true with
    | Except.error c => Except.error c
    | Except.ok addRes =>
      if pyTruthy addRes = false then Except.ok false
      else
        match run_command commitOutcome true with
        | Except.error c => Except.error c
        | Except.ok _ =>
          match run_command pushOutcome true with
          | Except.error c => Except.error c
          | Except.ok pushRes =>
            if pyTruthy pushRes = false then Except.ok false
            else Except.ok true

/-- Model of Python `step_name.replace(underscore, dot)` as used by
`cli.validate_steps`: every underscore character becomes a dot. -/
def replace_underscores (s : String) : String :=
  String.mk (s.toList.map (fun ch => if ch = '_' then '.' else ch))

/-- One name resolution attempt of `cli.validate_steps`: first a direct
alias-table hit, otherwise underscores are normalized to dots and the
result is accepted if it is a canonical identifier. -/
def resolve_step (aliases : List (String × String)) (available : List String)
    (name : String) : Option String :=
  match aliases.lookup name with
  | some canonical => some canonical
  | none =>
      let normalized := replace_underscores name
      if available.contains normalized then some normalized else none

/-- The resolution loop of `cli.validate_steps`: walks the requested
names in order, appending resolved canonical names to the first component
and unresolved original names to the second. -/
def translate_loop (aliases : List (String × String)) (available : List String) :
    List String → List String × List String
  | [] => ([], [])
  | n :: rest =>
      let (t, i) := translate_loop aliases available rest
      match resolve_step aliases available n with
      | some c => (c :: t, i)
      | none => (t, n :: i)

/-- Insertion of a string into a ≤-sorted list, for `sorted(aliases.keys())`. -/
def insertSorted (s : String) : List String → List String
  | [] => [s]
  | t :: rest => if s ≤ t then s :: t :: rest else t :: insertSorted s rest

/-- `sorted(...)` over strings, used for the alias listing in the fatal
error message of `cli.validate_steps`. -/
def sortStrings (l : List String) : List String := l.foldr insertSorted []

/-- Embedding of `cli.validate_steps` (src/routine_workflow/cli.py).
A falsy (empty) request returns the empty selection, which the runner
reads as "run all steps".  Otherwise each name is resolved independently;
if some names are invalid a warning naming exactly those is printed, and
if additionally no name resolved the source prints the sorted known alias
names and calls `sys.exit(1)` — modelled as `Except.error` carrying the
exit code and that alias listing.  The ok-value pairs the returned
translated list with the invalid names the warning reported. -/
def validate_steps (steps : List String) (available : List String)
    (aliases : List (String × String)) :
    Except (Int × List String) (List String × List String) :=
  if steps.isEmpty then
    Except.ok ([], [])
  else
    let (translated, invalid) := translate_loop aliases available steps
    if invalid.isEmpty = false ∧ translated.isEmpty = true then
      Except.error (1, sortStrings (aliases.map Prod.fst))
    else
      Except.ok (translated, invalid)

/-- Observable events of `WorkflowRunner.run`
(src/routine_workflow/runner.py): changing the working directory to the
project root (`os.chdir`), acquiring and releasing the single-instance
lock (via `lock_context`), and starting execution of a named step. -/
inductive Ev where
  | chdir
  | acquire
  | release
  | step (name : String)
deriving DecidableEq, Repr

/-- Environment of one `WorkflowRunner.run` call: whether the lock
directory is free (so `acquire_lock` succeeds), the boolean returned by
the backup step (`step4`), and which steps raise an exception when run. -/
structure RunEnv where
  lockFree : Bool
  backupResult : Bool
  raises : String → Bool

/-- The fixed `all_steps` catalog built inside `WorkflowRunner.run`
(names only; the bound functions are summarised by `RunEnv`). -/
def all_steps : List String := ["step1", "step2", "step3", "step4", "step5"]

/-- The step loop of `WorkflowRunner.run`: runs the selected names in
order, recording a `backup_success` value when `step4` runs; a step that
raises stops the loop (`Sum.inl ()`, caught by the orchestrator's
`except Exception`), otherwise the loop finishes with the final
`backup_success` (`Sum.inr`).  The first component collects the events. -/
def run_steps (env : RunEnv) : List String → Option Bool → List Ev × (Unit ⊕ Option Bool)
  | [], b => ([], Sum.inr b)
  | n :: rest, b =>
      if env.raises n then
        ([Ev.step n], Sum.inl ())
      else
        let b' := if n = "step4" then some env.backupResult else b
        (Ev.step n :: (run_steps env rest b').1, (run_steps env rest b').2)

/-- The `to_run` selection computed inside `WorkflowRunner.run`: a falsy
`self.steps` (absent or empty) selects the whole catalog, otherwise the
requested names are filtered to those present in the catalog's step map,
preserving the request's order and repeats. -/
def to_run_of (steps : Option (List String)) : List String :=
  match steps with
  | some (n :: rest) => (n :: rest).filter (fun m => all_steps.contains m)
  | _ => all_steps

/-- Embedding of `WorkflowRunner.run` (src/routine_workflow/runner.py),
returning the event trace and the outcome (`Except.error` for a
`SystemExit`, `Except.ok` for a returned exit code).  The source calls
`os.chdir(self.config.project_root)` and only then enters
`with lock_context(self)`, which acquires the lock; `release_lock` runs
on every exit of the `with` block.  Inside the block an empty `to_run`
returns 0 early; a step exception is caught and converted to exit code 1;
otherwise the backup gate yields 2 exactly when `step4` ran, returned
`False`, and `fail_on_backup` is set, else 0.  A pre-existing lock makes
`acquire_lock` raise `SystemExit(3)`, which `run` re-raises. -/
def workflow_run (cfg : WorkflowConfig) (steps : Option (List String)) (env : RunEnv) :
    List Ev × Except Int Int :=
  if env.lockFree = false then
    ([Ev.chdir], Except.error 3)
  else
    let to_run := to_run_of steps
    if to_run.isEmpty then
      ([Ev.chdir, Ev.acquire, Ev.release], Except.ok 0)
    else
      let code : Int :=
        match (run_steps env to_run none).2 with
        | Sum.inl _ => 1
        | Sum.inr b => if b = some false ∧ cfg.fail_on_backup = true then 2 else 0
      ([Ev.chdir, Ev.acquire] ++ (run_steps env to_run none).1 ++ [Ev.release],
       Except.ok code)

/-- Scan of a trace checking that every `chdir` event happens while the
lock is held; the accumulator tracks whether the lock is currently held. -/
def chdir_locked : List Ev → Bool → Bool
  | [], _ => true
  | Ev.acquire :: rest, _ => chdir_locked rest true
  | Ev.release :: rest, _ => chdir_locked rest false
  | Ev.chdir :: rest, held => held && chdir_locked rest held
  | Ev.step _ :: rest, held => chdir_locked rest held

/-- Scan of a trace checking that every step-execution event happens
while the lock is held. -/
def steps_locked : List Ev → Bool → Bool
  | [], _ => true
  | Ev.acquire :: rest, _ => steps_locked rest true
  | Ev.release :: rest, _ => steps_locked rest false
  | Ev.step _ :: rest, held => held && steps_locked rest held
  | Ev.chdir :: rest, held => steps_locked rest held

/-- C1: for every lock path state, if the lock location already exists
then `acquire_lock` raises `SystemExit(3)` and leaves the existing lock
location exactly as it was; otherwise it atomically creates the lock
directory (the creation itself fails when the directory exists, so there
is no check-then-create race) and writes the current process identifier
into the `pid` marker file inside it. -/
theorem acquire_lock_spec (pid : Nat) (fs : LockFS) :
    (fs.lockDirExists = true → acquire_lock pid fs = AcquireResult.exit 3 fs) ∧
    (fs.lockDirExists = false →
      acquire_lock pid fs =
        AcquireResult.ok { lockDirExists := true, pidFile := some (toString pid) }
                         { lock_acquired := true, pid_path := true }) := by
  constructor <;> intro h <;> simp [acquire_lock, h]

/-- Witness for `acquire_lock_spec` at concrete inputs: an existing lock
makes acquisition exit 3 without change, a free lock path yields the
created directory with the pid marker. -/
theorem acquire_lock_spec_wit :
    acquire_lock 42 { lockDirExists := true, pidFile := some "9" } =
      AcquireResult.exit 3 { lockDirExists := true, pidFile := some "9" } ∧
    acquire_lock 7 { lockDirExists := false, pidFile := none } =
      AcquireResult.ok { lockDirExists := true, pidFile := some (toString 7) }
                       { lock_acquired := true, pid_path := true } :=
  ⟨(acquire_lock_spec 42 _).1 rfl, (acquire_lock_spec 7 _).2 rfl⟩

/-- C4: `release_lock` is total (the source catches and swallows every
error, including an injected `shutil.rmtree` failure) and idempotent:
when the lock was never acquired by this runner the call is an exact
no-op, and a second call right after a first one changes nothing further
— after the first call the runner no longer considers itself the owner,
so no second removal can happen. -/
theorem release_lock_idempotent (pid : Nat) (e1 e2 : Bool) (fs : LockFS) (st : LockState) :
    (st.lock_acquired = false → release_lock pid e1 fs st = (fs, st)) ∧
    release_lock pid e2 (release_lock pid e1 fs st).1 (release_lock pid e1 fs st).2 =
      release_lock pid e1 fs st := by
  constructor
  · intro h
    simp [release_lock, h]
  · cases hst : st.lock_acquired with
    | false =>
        simp [release_lock, hst]
    | true =>
        simp [release_lock, hst]

/-- Witness for `release_lock_idempotent`: a runner that owns the lock
releases it once; the repeated call returns the same state unchanged, and
a never-acquired runner's call is a no-op. -/
theorem release_lock_idempotent_wit :
    (release_lock 5 false
        { lockDirExists := true, pidFile := some "5" }
        { lock_acquired := false, pid_path := false } =
      ({ lockDirExists := true, pidFile := some "5" },
       { lock_acquired := false, pid_path := false })) ∧
    release_lock 5 false
        (release_lock 5 false
          { lockDirExists := true, pidFile := some "5" }
          { lock_acquired := true, pid_path := true }).1
        (release_lock 5 false
          { lockDirExists := true, pidFile := some "5" }
          { lock_acquired := true, pid_path := true }).2 =
      release_lock 5 false
        { lockDirExists := true, pidFile := some "5" }
        { lock_acquired := true, pid_path := true } :=
  ⟨(release_lock_idempotent 5 false false
      { lockDirExists := true, pidFile := some "5" }
      { lock_acquired := false, pid_path := false }).1 rfl,
   (release_lock_idempotent 5 false false
      { lockDirExists := true, pidFile := some "5" }
      { lock_acquired := true, pid_path := true }).2⟩

/-- C5: when the marker file exists and records a process identifier
different from the current one, `release_lock` leaves the lock location
on disk exactly unchanged (only a warning is logged); when the marker
file is missing it performs a best-effort removal of the lock location
instead. -/
theorem release_lock_foreign_and_stale (pid : Nat) (e : Bool) (fs : LockFS)
    (st : LockState) (txt : String) :
    (st.lock_acquired = true → st.pid_path = true → fs.pidFile = some txt →
      pyStrip txt ≠ toString pid → (release_lock pid e fs st).1 = fs) ∧
    (st.lock_acquired = true → fs.pidFile = none → fs.lockDirExists = true →
      e = false →
      (release_lock pid e fs st).1 = { lockDirExists := false, pidFile := none }) := by
  constructor
  · intro h1 h2 h3 h4
    simp [release_lock, h1, h2, h3, h4]
  · intro h1 h3 h5 h6
    cases hpp : st.pid_path with
    | false => simp [release_lock, h1, h3, h5, h6, hpp]
    | true => simp [release_lock, h1, h3, h5, h6, hpp]

/-- Witness for `release_lock_foreign_and_stale`: a foreign pid "999"
leaves the lock directory untouched; a missing marker file triggers the
stale removal. -/
theorem release_lock_foreign_and_stale_wit :
    (release_lock 5 false
        { lockDirExists := true, pidFile := some "999" }
        { lock_acquired := true, pid_path := true }).1 =
      { lockDirExists := true, pidFile := some "999" } ∧
    (release_lock 5 false
        { lockDirExists := true, pidFile := none }
        { lock_acquired := true, pid_path := true }).1 =
      { lockDirExists := false, pidFile := none } :=
  ⟨(release_lock_foreign_and_stale 5 false
      { lockDirExists := true, pidFile := some "999" }
      { lock_acquired := true, pid_path := true } "999").1 rfl rfl rfl (by decide),
   (release_lock_foreign_and_stale 5 false
      { lockDirExists := true, pidFile := none }
      { lock_acquired := true, pid_path := true } "").2 rfl rfl rfl rfl⟩

/-- C2: a fatal `run_command` whose process does not succeed terminates
the process with the exit code mapped from the failure classification:
a non-zero return code maps to that code (the source's
`proc.returncode or 1` falls back to 1 only on a falsy code, which the
failure branch never carries), a timeout maps to 124, a missing
executable to 127, and any other exception to 1. -/
theorem run_command_fatal_exit_codes (rc : Int) (out err m1 m2 m3 : String)
    (h : rc ≠ 0) :
    run_command (ProcOutcome.completed rc out err) true = Except.error rc ∧
    run_command (ProcOutcome.timedOut m1) true = Except.error 124 ∧
    run_command (ProcOutcome.notFound m2) true = Except.error 127 ∧
    run_command (ProcOutcome.otherError m3) true = Except.error 1 := by
  have hb : (rc == 0) = false := by simpa using h
  refine ⟨?_, rfl, rfl, rfl⟩
  simp [run_command, pyOrInt, hb]

/-- Witness for `run_command_fatal_exit_codes` at return code 7 and
concrete exception messages. -/
theorem run_command_fatal_exit_codes_wit :
    run_command (ProcOutcome.completed 7 "" "") true = Except.error 7 ∧
    run_command (ProcOutcome.timedOut "t") true = Except.error 124 ∧
    run_command (ProcOutcome.notFound "n") true = Except.error 127 ∧
    run_command (ProcOutcome.otherError "x") true = Except.error 1 :=
  run_command_fatal_exit_codes 7 "" "" "t" "n" "x" (by decide)

/-- C6: a non-fatal `run_command` never raises: for every launch outcome
it returns a (truthy, non-empty) result dictionary whose success flag
reflects the classification — false on every failure — and on the normal
completed path the dictionary is exactly the full result carrying the
success flag and both captured streams. -/
theorem run_command_nonfatal_total (o : ProcOutcome) :
    ∃ d : PyDict, run_command o false = Except.ok d ∧
      pyTruthy d = true ∧
      d.lookup "success" = some (PyVal.bool (procSuccess o)) ∧
      (procSuccess o = false → d.lookup "success" = some (PyVal.bool false)) ∧
      (∀ rc out err, o = ProcOutcome.completed rc out err →
        d = [("success", PyVal.bool (rc == 0)), ("stdout", PyVal.str out),
             ("stderr", PyVal.str err)]) := by
  cases o with
  | completed rc out err =>
      refine ⟨[("success", PyVal.bool (rc == 0)), ("stdout", PyVal.str out),
               ("stderr", PyVal.str err)], ?_, ?_, ?_, ?_, ?_⟩
      · simp [run_command]
      · simp [pyTruthy]
      · simp [procSuccess, List.lookup]
      · intro hfail
        simp [procSuccess] at hfail
        simp [List.lookup, hfail]
      · intro rc2 out2 err2 heq
        cases heq
        rfl
  | timedOut msg =>
      refine ⟨_, rfl, by simp [pyTruthy], by simp [procSuccess, List.lookup], ?_, ?_⟩
      · intro _; simp [List.lookup]
      · intro rc2 out2 err2 heq; simp at heq
  | notFound msg =>
      refine ⟨_, rfl, by simp [pyTruthy], by simp [procSuccess, List.lookup], ?_, ?_⟩
      · intro _; simp [List.lookup]
      · intro rc2 out2 err2 heq; simp at heq
  | otherError msg =>
      refine ⟨_, rfl, by simp [pyTruthy], by simp [procSuccess, List.lookup], ?_, ?_⟩
      · intro _; simp [List.lookup]
      · intro rc2 out2 err2 heq; simp at heq

/-- Witness for `run_command_nonfatal_total` at a failing completed
process (return code 2, captured streams "o" and "e"). -/
theorem run_command_nonfatal_total_wit :
    ∃ d : PyDict, run_command (ProcOutcome.completed 2 "o" "e") false = Except.ok d ∧
      pyTruthy d = true ∧
      d.lookup "success" =
        some (PyVal.bool (procSuccess (ProcOutcome.completed 2 "o" "e"))) ∧
      (procSuccess (ProcOutcome.completed 2 "o" "e") = false →
        d.lookup "success" = some (PyVal.bool false)) ∧
      (∀ rc out err, ProcOutcome.completed 2 "o" "e" = ProcOutcome.completed rc out err →
        d = [("success", PyVal.bool (rc == 0)), ("stdout", PyVal.str out),
             ("stderr", PyVal.str err)]) :=
  run_command_nonfatal_total (ProcOutcome.completed 2 "o" "e")

theorem translate_loop_eq (aliases : List (String × String)) (available : List String)
    (l : List String) :
    translate_loop aliases available l =
      (l.filterMap (resolve_step aliases available),
       l.filter (fun n => (resolve_step aliases available n).isNone)) := by
  induction l with
  | nil => rfl
  | cons n rest ih =>
      cases h : resolve_step aliases available n with
      | none =>
          simp [translate_loop, ih, h, List.filterMap_cons, List.filter_cons]
      | some c =>
          simp [translate_loop, ih, h, List.filterMap_cons, List.filter_cons]

/-- C7: for every non-empty requested step-name list, the names that
resolve neither through the alias table nor (after normalizing
underscores to dots) as canonical identifiers are collected as the
invalid names; when at least one requested name resolved, the call
returns the resolved selection — in the user's order, with repeats,
excluding the invalid names — together with the warned-about invalid
names; when no requested name resolved, the call terminates the process
(`sys.exit(1)`) listing the known alias names, before any step executes. -/
theorem validate_steps_spec (steps available : List String)
    (aliases : List (String × String)) (hne : steps ≠ []) :
    (steps.filterMap (resolve_step aliases available) ≠ [] →
      validate_steps steps available aliases =
        Except.ok (steps.filterMap (resolve_step aliases available),
                   steps.filter (fun n => (resolve_step aliases available n).isNone))) ∧
    (steps.filterMap (resolve_step aliases available) = [] →
      validate_steps steps available aliases =
        Except.error (1, sortStrings (aliases.map Prod.fst))) := by
  have hE : steps.isEmpty = false := by
    cases steps with
    | nil => exact absurd rfl hne
    | cons a l => rfl
  constructor
  · intro hres
    have hT : (steps.filterMap (resolve_step aliases available)).isEmpty = false := by
      cases hc : steps.filterMap (resolve_step aliases available) with
      | nil => exact absurd hc hres
      | cons a l => rfl
    simp [validate_steps, hE, translate_loop_eq, hT]
  · intro hres
    have hall : ∀ a ∈ steps, resolve_step aliases available a = none :=
      List.filterMap_eq_nil_iff.mp hres
    have hfilter : steps.filter (fun n => (resolve_step aliases available n).isNone) =
        steps := by
      apply List.filter_eq_self.mpr
      intro a ha
      simp [hall a ha]
    have hI : (steps.filter
        (fun n => (resolve_step aliases available n).isNone)).isEmpty = false := by
      rw [hfilter]; exact hE
    simp [validate_steps, hE, translate_loop_eq, hres, hI]

/-- Witness for `validate_steps_spec`: the request
`["backup", "bogus", "step2_5"]` against catalog `["step2.5"]` and alias
table `[("backup", "step4")]` resolves to `["step4", "step2.5"]` warning
about `"bogus"`; the all-unknown request `["nope"]` exits fatally listing
the alias names. -/
theorem validate_steps_spec_wit :
    validate_steps ["backup", "bogus", "step2_5"] ["step2.5"] [("backup", "step4")] =
      Except.ok (["step4", "step2.5"], ["bogus"]) ∧
    validate_steps ["nope"] ["step2.5"] [("backup", "step4")] =
      Except.error (1, ["backup"]) :=
  ⟨((validate_steps_spec ["backup", "bogus", "step2_5"] ["step2.5"]
      [("backup", "step4")] (by decide)).1 (by decide)).trans rfl,
   ((validate_steps_spec ["nope"] ["step2.5"]
      [("backup", "step4")] (by decide)).2 (by decide)).trans rfl⟩

theorem run_steps_no_raise (env : RunEnv) (l : List String) (b : Option Bool)
    (h : ∀ n ∈ l, env.raises n = false) :
    (run_steps env l b).2 =
      Sum.inr (if l.contains "step4" then some env.backupResult else b) := by
  induction l generalizing b with
  | nil => rfl
  | cons n rest ih =>
      have hn : env.raises n = false := h n (List.mem_cons_self n rest)
      have hr : ∀ m ∈ rest, env.raises m = false :=
        fun m hm => h m (List.mem_cons_of_mem n hm)
      by_cases h4 : n = "step4"
      · subst h4
        simp [run_steps, hn, ih _ hr, List.contains_cons]
      · have h4s : "step4" ≠ n := fun hh => h4 hh.symm
        simp [run_steps, hn, ih _ hr, List.contains_cons, h4, h4s]

/-- C3: in a run where the backup step (`step4`) executes and reports
failure and no selected step raises, the orchestrator's `run()` returns
exit code 2 when `fail_on_backup` is set and exit code 0 when it is not:
a failed backup alone never fails the run unless explicitly gated. -/
theorem workflow_run_backup_gate (cfg : WorkflowConfig) (steps : Option (List String))
    (env : RunEnv) (hl : env.lockFree = true)
    (hmem : (to_run_of steps).contains "step4" = true)
    (hnr : ∀ n ∈ to_run_of steps, env.raises n = false)
    (hb : env.backupResult = false) :
    (workflow_run cfg steps env).2 =
      Except.ok (if cfg.fail_on_backup then 2 else 0) := by
  have hne : (to_run_of steps).isEmpty = false := by
    cases hc : to_run_of steps with
    | nil => rw [hc] at hmem; simp [List.contains] at hmem
    | cons a l => rfl
  have h2 := run_steps_no_raise env (to_run_of steps) none hnr
  rw [hmem, hb] at h2
  simp only [workflow_run, hl, hne, Bool.false_eq_true, if_false, if_true]
  rw [h2]
  cases hf : cfg.fail_on_backup <;> simp [hf]

/-- Witness for `workflow_run_backup_gate`: a full default-selection run
with a failing backup yields exit 2 under `fail_on_backup := true` and
exit 0 under `fail_on_backup := false`. -/
theorem workflow_run_backup_gate_wit :
    (workflow_run { sampleConfig with fail_on_backup := true } none
        { lockFree := true, backupResult := false, raises := fun _ => false }).2 =
      Except.ok 2 ∧
    (workflow_run sampleConfig none
        { lockFree := true, backupResult := false, raises := fun _ => false }).2 =
      Except.ok 0 :=
  ⟨workflow_run_backup_gate { sampleConfig with fail_on_backup := true } none
      { lockFree := true, backupResult := false, raises := fun _ => false }
      rfl (by decide) (by intro n hn; rfl) rfl,
   workflow_run_backup_gate sampleConfig none
      { lockFree := true, backupResult := false, raises := fun _ => false }
      rfl (by decide) (by intro n hn; rfl) rfl⟩

/-- A run environment with a free lock, successful backup and no step
exceptions. -/
def envFree : RunEnv where
  lockFree := true
  backupResult := true
  raises := fun _ => false

/-- C9 counterexample: in a default full run the working directory is
changed to the project root (`os.chdir` at runner.py line 56) strictly
before the lock is acquired (`with lock_context(self)` at line 58), so
the `chdir` event happens while the lock is not held — refuting the claim
that the lock is acquired before the working directory changes. -/
theorem workflow_run_chdir_unlocked_cex :
    chdir_locked (workflow_run sampleConfig none envFree).1 false = false := by
  decide

theorem run_steps_events (env : RunEnv) (l : List String) (b : Option Bool) :
    ∀ e ∈ (run_steps env l b).1, ∃ n, e = Ev.step n := by
  induction l generalizing b with
  | nil => intro e he; simp [run_steps] at he
  | cons n rest ih =>
      intro e he
      by_cases hr : env.raises n
      · simp [run_steps, hr] at he
        exact ⟨n, he⟩
      · simp [run_steps, hr] at he
        rcases he with he | he
        · exact ⟨n, he⟩
        · exact ih _ e he

theorem steps_locked_append_steps (evs rest : List Ev)
    (h : ∀ e ∈ evs, ∃ n, e = Ev.step n) :
    steps_locked (evs ++ rest) true = steps_locked rest true := by
  induction evs with
  | nil => rfl
  | cons e es ih =>
      obtain ⟨n, rfl⟩ := h e (List.mem_cons_self e es)
      simp only [List.cons_append, steps_locked, Bool.true_and]
      exact ih (fun x hx => h x (List.mem_cons_of_mem _ hx))

/-- C9 amended: in every run whose lock acquisition succeeds, the working
directory is changed to the project root first, the lock is acquired
immediately afterwards and before any step runs, and every
step-execution event happens while the lock is held (with the release
following the steps). -/
theorem workflow_run_lock_order (cfg : WorkflowConfig) (steps : Option (List String))
    (env : RunEnv) (hl : env.lockFree = true) :
    steps_locked (workflow_run cfg steps env).1 false = true ∧
    ∃ rest, (workflow_run cfg steps env).1 = Ev.chdir :: Ev.acquire :: rest := by
  by_cases he : (to_run_of steps).isEmpty
  · constructor
    · simp [workflow_run, hl, he, steps_locked]
    · exact ⟨[Ev.release], by simp [workflow_run, hl, he]⟩
  · have hE : (to_run_of steps).isEmpty = false := by simpa using he
    have hevs := run_steps_events env (to_run_of steps) none
    constructor
    · simp only [workflow_run, hl, hE, Bool.false_eq_true, if_false, if_true,
        List.cons_append, List.nil_append, steps_locked]
      rw [steps_locked_append_steps _ _ hevs]
      rfl
    · exact ⟨(run_steps env (to_run_of steps) none).1 ++ [Ev.release],
        by simp [workflow_run, hl, hE]⟩

/-- Witness for `workflow_run_lock_order` at the default full run. -/
theorem workflow_run_lock_order_wit :
    steps_locked (workflow_run sampleConfig none envFree).1 false = true ∧
    ∃ rest, (workflow_run sampleConfig none envFree).1 =
      Ev.chdir :: Ev.acquire :: rest :=
  workflow_run_lock_order sampleConfig none envFree rfl

/-- C8 (evaluation at the failing input): with dry-run disabled, a
non-empty configured run command, and `code-dump` available,
`generate_dumps` appends `-nd` in place to the list object shared with
the configuration, so after the call the configuration's
`code_dump_run_command` field reads `[..., "-nd"]` and the configuration is
no longer the value it was constructed with — contradicting the claim
that no step mutates the shared `WorkflowConfig`. -/
theorem generate_dumps_mutates_config :
    (generate_dumps { sampleConfig with dry_run := false } true).1.code_dump_run_command =
      ["code-dump", "batch", "run", "-nd"] ∧
    (generate_dumps { sampleConfig with dry_run := false } true).1 ≠
      { sampleConfig with dry_run := false } := by
  constructor
  · rfl
  · decide

theorem run_command_ok_truthy (o : ProcOutcome) (f : Bool) (d : PyDict)
    (h : run_command o f = Except.ok d) : pyTruthy d = true := by
  cases o <;> simp only [run_command] at h <;> split at h <;> cases h <;> rfl

/-- C10: whenever `commit_hygiene` returns to its caller — that is, no
fatal `run_command` termination occurred — it returns `True`, whatever
the git invocations reported: `run_command` always returns a non-empty
(hence truthy) dictionary, so the `if not run_command(...)` guards are
never taken and the `return False` branches are unreachable. -/
theorem commit_hygiene_returns_true (cfg : WorkflowConfig) (gitExists : Bool)
    (addOutcome commitOutcome pushOutcome : ProcOutcome) (r : Bool)
    (h : commit_hygiene cfg gitExists addOutcome commitOutcome pushOutcome =
      Except.ok r) : r = true := by
  unfold commit_hygiene at h
  split at h
  · cases h; rfl
  · split at h
    · cases h
    · rename_i addRes hA
      rw [run_command_ok_truthy addOutcome true addRes hA] at h
      simp only [Bool.true_eq_false, if_false] at h
      split at h
      · cases h
      · split at h
        · cases h
        · rename_i pushRes hP
          rw [run_command_ok_truthy pushOutcome true pushRes hP] at h
          simp only [Bool.true_eq_false, if_false] at h
          cases h; rfl

/-- Witness for `commit_hygiene_returns_true`: a real (non-dry-run,
push-enabled) invocation whose three git commands all succeed returns
through the normal path, and the returned flag is `True`. -/
theorem commit_hygiene_returns_true_wit :
    commit_hygiene { sampleConfig with dry_run := false, git_push := true } true
        (ProcOutcome.completed 0 "" "") (ProcOutcome.completed 0 "" "")
        (ProcOutcome.completed 0 "" "") = Except.ok true ∧
    (true : Bool) = true :=
  ⟨rfl,
   commit_hygiene_returns_true { sampleConfig with dry_run := false, git_push := true }
     true (ProcOutcome.completed 0 "" "") (ProcOutcome.completed 0 "" "")
     (ProcOutcome.completed 0 "" "") true rfl⟩

end RoutineWorkflow
